import Mathlib

/-!
Verification of the Comprehensive-Website-Analyzer repository.

This file gives a shallow embedding, in Lean 4, of the scoring and
heuristic-detection logic of the repository (protection_analyzer.py,
structure_analyzer.py, comprehensive_analyzer.py, utils.py) and proves or
refutes the behavioural claims made about it.

Modelling conventions:
* HTTP traffic, the headless browser and the HTML parser are external
  collaborators; each network probe's outcome (a response, or a raised
  exception) is a field of an environment record, and a parsed document is a
  record of query oracles.  Everything computed FROM those observations is
  translated from the Python source, statement by statement.
* Python strings are modelled as `List Char`; `str.lower()` is modelled on
  ASCII letters.
* Python dicts whose keys are dynamic are modelled as insertion-ordered
  association lists (`List (String × _)`); dict keys that a given code path
  never assigns are modelled as `Option` fields holding `none`.
* float-valued diagnostics (response times, similarity ratios, rates) are not
  modelled; none of the claims mentions them.  Where a float comparison picks
  a branch (the SequenceMatcher similarity cutoff in
  check_javascript_protection's Selenium branch) the comparison's outcome is
  an oracle field of the environment.
-/

/-! ### Python string primitives (utils shared by all modules) -/

/-- ASCII lowering of one character, modelling Python's str.lower() on the
ASCII range. -/
def pyLowerChar (c : Char) : Char :=
  if 'A' ≤ c ∧ c ≤ 'Z' then Char.ofNat (c.toNat + 32) else c

/-- Lower a whole Python string (modelled as a char list). -/
def lowerL (l : List Char) : List Char := l.map pyLowerChar

/-- Lower a Lean `String` (used for case-insensitive header names). -/
def lowerS (s : String) : String := String.mk (lowerL s.data)

/-- Python's `pat in hay` substring test. -/
def hasSub (hay pat : List Char) : Bool :=
  match hay with
  | [] => pat.isEmpty
  | _ :: t => pat.isPrefixOf hay || hasSub t pat

/-- Fuel-driven left-to-right non-overlapping scan counting occurrences of
`pat`, modelling `len(re.findall(pat, hay))` for a literal pattern.  The fuel
`hay.length` suffices because every step consumes at least one character. -/
def scanCount (pat : List Char) : Nat → List Char → Nat
  | 0, _ => 0
  | _ + 1, [] => 0
  | fuel + 1, c :: cs =>
    if pat.isPrefixOf (c :: cs) then
      1 + scanCount pat fuel (List.drop (pat.length - 1) cs)
    else
      scanCount pat fuel cs

/-- `len(re.findall(pat, hay))` for a literal pattern `pat`. -/
def countSub (hay pat : List Char) : Nat := scanCount pat hay.length hay

/-! ### HTTP observation model -/

/-- The observable part of a `requests` response used by the analyzers:
status code, body text, response headers, and the number of cookies the
server set on the session. -/
structure HttpResponse where
  status : Nat
  text : List Char
  headers : List (String × String)
  cookiesCount : Nat
deriving DecidableEq

/-- Outcome of one `session.get(...)` call: a response, or a raised
exception carrying its message. -/
inductive HttpOutcome where
  | ok (r : HttpResponse)
  | exn (msg : String)
deriving DecidableEq

/-- Case-insensitive header lookup with default `''`, modelling
`response.headers.get(k, '')` on requests' CaseInsensitiveDict. -/
def headerGet (hs : List (String × String)) (k : String) : String :=
  match hs.find? (fun p => lowerS p.1 == lowerS k) with
  | some p => p.2
  | none => ""

/-- Case-insensitive header-name membership, modelling `k in response.headers`. -/
def headerHas (hs : List (String × String)) (k : String) : Bool :=
  hs.any (fun p => lowerS p.1 == lowerS k)

/-! ### protection_analyzer.py — data model -/

/-- One entry of the `results['mechanisms']` mapping built by
`ProtectionAnalyzer.analyze`. -/
structure Mechanism where
  detected : Bool
  score : Nat
  description : String
deriving DecidableEq

/-- The dict returned by `ProtectionAnalyzer.check_basic_access`.  The
float `response_time` is not modelled. -/
structure BasicAccess where
  status_code : Nat
  accessible : Bool
  content_length : Nat
  error : Option String
  headers : List (String × String)
deriving DecidableEq

/-- One entry of `results` inside `check_user_agent_protection`. -/
structure UAResult where
  user_agent : String
  status_code : Nat
  content_length : Nat
  blocked : Bool
  error : Option String
deriving DecidableEq

/-- The dict returned by `check_user_agent_protection`; the float
`protection_strength` (blocked/total) is kept as its numerator
`blocked_count` together with the fixed total of 4 requests. -/
structure UAProtection where
  results : List UAResult
  protection_detected : Bool
  blocked_count : Nat
  description : String
deriving DecidableEq

/-- One entry of `results` inside `check_rate_limiting`; the float
`response_time` is not modelled. -/
structure RateResult where
  request_num : Nat
  status_code : Nat
  blocked : Bool
  error : Option String
deriving DecidableEq

/-- The dict returned by `check_rate_limiting`; the wall-clock floats
(`total_time`, `requests_per_second`) are not modelled. -/
structure RateLimiting where
  results : List RateResult
  total_requests : Nat
  blocked_requests : Nat
  protection_detected : Bool
  description : String
deriving DecidableEq

/-- The dict returned by `check_cloudflare_protection`; keys that only the
success path assigns are `Option` fields. -/
structure CFCheck where
  detected : Bool
  indicators_found : Option Nat
  server_header : Option String
  cf_ray : Option String
  error : Option String
  description : String
deriving DecidableEq

/-- The dict returned by `check_javascript_protection`. -/
structure JSCheck where
  js_required : Bool
  indicators_found : Option Nat
  error : Option String
  description : String
deriving DecidableEq

/-- The dict returned by `check_captcha_protection`. -/
structure CaptchaCheck where
  detected : Bool
  indicators_found : Option Nat
  error : Option String
  description : String
deriving DecidableEq

/-- The dict returned by `check_cookie_requirements`. -/
structure CookieCheck where
  cookies_used : Bool
  cookies_count : Option Nat
  error : Option String
  description : String
deriving DecidableEq

/-- One entry of the dict returned by `test_bypass_methods`. -/
structure BypassMethod where
  success : Bool
  status_code : Option Nat
  error : Option String
  description : String
deriving DecidableEq

/-- The dict returned by `ProtectionAnalyzer.analyze`.  `best_method` and
`bypass_successes` are only assigned on the normal path (hence `Option`);
`bypass_successes` keeps the float `bypass_success_rate`'s data as the pair
(successful methods, attempted methods).  The key `complexity_score` is
never assigned anywhere in protection_analyzer.py; the field exists (always
`none`) to model `protection.get('complexity_score', 0)` performed by
comprehensive_analyzer.py. -/
structure PReport where
  url : String
  mechanisms : List (String × Mechanism)
  bypass_methods : List (String × BypassMethod)
  total_score : Nat
  complexity_level : String
  best_method : Option String
  bypass_successes : Option (Nat × Nat)
  complexity_score : Option Nat
deriving DecidableEq

/-- Environment of one `ProtectionAnalyzer.analyze` run: the availability of
the optional libraries and the outcome of every outbound probe the source
can perform, keyed by call site (for the four-User-Agent probe by the agent
string sent, for the rate probe by request index).  `jsSelenium` is the
Selenium sub-check's outcome: whether the SequenceMatcher difference
exceeded 0.3, or the exception it raised.  `bypassChrome` is whether
`'error' not in driver.page_source.lower()`, or the exception raised. -/
structure PEnv where
  url : String
  uaAvailable : Bool
  cloudscraperAvailable : Bool
  seleniumAvailable : Bool
  basicResp : HttpOutcome
  uaResp : String → HttpOutcome
  rateResp : Nat → HttpOutcome
  cfResp : HttpOutcome
  jsResp : HttpOutcome
  jsSelenium : Except String Bool
  captchaResp : HttpOutcome
  cookiesResp1 : HttpOutcome
  cookiesResp2 : HttpOutcome
  bypassReq : HttpOutcome
  bypassSession : HttpOutcome
  bypassFakeUA : HttpOutcome
  bypassCloud : HttpOutcome
  bypassChrome : Except String Bool

/-! ### protection_analyzer.py — the checks (lines 86-441) -/

namespace ProtectionAnalyzer

/-- Lines 86-106: `check_basic_access`. -/
def check_basic_access (o : HttpOutcome) : BasicAccess :=
  match o with
  | .ok r =>
    { status_code := r.status
      accessible := r.status == 200
      content_length := r.text.length
      error := none
      headers := r.headers }
  | .exn e =>
    { status_code := 0
      accessible := false
      content_length := 0
      error := some e
      headers := [] }

/-- The four probe agents of lines 110-115. -/
def probeAgents : List String :=
  ["Mozilla/5.0 (Windows NT 10.0; Win64; x64) AppleWebKit/537.36",
   "Python-requests/2.25.1",
   "curl/7.68.0",
   "bot/1.0"]

/-- Lines 108-152: `check_user_agent_protection`. -/
def check_user_agent_protection (env : PEnv) : UAProtection :=
  let results := probeAgents.map (fun ua =>
    match env.uaResp ua with
    | .ok r =>
      { user_agent := ua
        status_code := r.status
        content_length := r.text.length
        blocked := r.status == 403 || r.status == 429 || r.status == 503
        error := none }
    | .exn e =>
      { user_agent := ua
        status_code := 0
        content_length := 0
        blocked := true
        error := some e })
  let blocked_count := (results.filter (fun r => r.blocked)).length
  { results := results
    protection_detected := blocked_count > 0
    blocked_count := blocked_count
    description := "Заблокировано " ++ toString blocked_count ++ " из "
      ++ toString results.length ++ " User-Agent" }

/-- Lines 154-196: `check_rate_limiting` (10 requests). -/
def check_rate_limiting (env : PEnv) : RateLimiting :=
  let results := (List.range 10).map (fun i =>
    match env.rateResp i with
    | .ok r =>
      { request_num := i + 1
        status_code := r.status
        blocked := r.status == 429 || r.status == 503
        error := none }
    | .exn e =>
      { request_num := i + 1
        status_code := 0
        blocked := true
        error := some e })
  let blocked_count := (results.filter (fun r => r.blocked)).length
  { results := results
    total_requests := 10
    blocked_requests := blocked_count
    protection_detected := blocked_count > 0
    description := "Заблокировано " ++ toString blocked_count ++ " из "
      ++ toString (10 : Nat) ++ " запросов" }

/-- Lines 198-228: `check_cloudflare_protection`. -/
def check_cloudflare_protection (env : PEnv) : CFCheck :=
  match env.cfResp with
  | .exn e =>
    { detected := false
      indicators_found := none
      server_header := none
      cf_ray := none
      error := some e
      description := "Ошибка проверки Cloudflare" }
  | .ok r =>
    let inds : List Bool :=
      [hasSub (lowerL (headerGet r.headers "server").data) "cloudflare".data,
       headerHas r.headers "cf-ray",
       hasSub (headerGet r.headers "set-cookie").data "__cfduid".data,
       hasSub (lowerL r.text) "checking your browser".data,
       hasSub (lowerL r.text) "cloudflare ray id".data,
       hasSub r.text "cf-browser-verification".data]
    let detected := inds.any (fun b => b)
    { detected := detected
      indicators_found := some (inds.count true)
      server_header := some (headerGet r.headers "server")
      cf_ray := some (headerGet r.headers "cf-ray")
      error := none
      description := if detected then "Cloudflare обнаружен" else "Cloudflare не обнаружен" }

/-- Lines 230-291: `check_javascript_protection`.  The Selenium branch's
content-difference percentage (a float) is not modelled; the branch's
decision `difference > 0.3` is the oracle `env.jsSelenium`. -/
def check_javascript_protection (env : PEnv) : JSCheck :=
  match env.jsResp with
  | .exn e =>
    { js_required := false
      indicators_found := none
      error := some e
      description := "Ошибка проверки JavaScript" }
  | .ok r =>
    if env.seleniumAvailable then
      match env.jsSelenium with
      | .error e =>
        { js_required := false
          indicators_found := none
          error := some e
          description := "Ошибка проверки JavaScript" }
      | .ok diffOver30 =>
        { js_required := diffOver30
          indicators_found := none
          error := none
          description := "Контент различается" }
    else
      let content := r.text
      let inds : List Bool :=
        [decide (countSub (lowerL content) "<script".data > 10),
         hasSub (lowerL content) "loading".data,
         hasSub (lowerL content) "please wait".data,
         hasSub (lowerL content) "javascript".data,
         decide (content.length < 1000)]
      let detected := decide (inds.count true ≥ 2)
      { js_required := detected
        indicators_found := some (inds.count true)
        error := none
        description := if detected then "JavaScript возможно требуется" else "JavaScript не требуется" }

/-- Lines 293-322: `check_captcha_protection`. -/
def check_captcha_protection (env : PEnv) : CaptchaCheck :=
  match env.captchaResp with
  | .exn e =>
    { detected := false
      indicators_found := none
      error := some e
      description := "Ошибка проверки капчи" }
  | .ok r =>
    let content := lowerL r.text
    let inds : List Bool :=
      [hasSub content "recaptcha".data,
       hasSub content "captcha".data,
       hasSub content "hcaptcha".data,
       hasSub content "solve the puzzle".data,
       hasSub content "verify you are human".data,
       hasSub content "geetest".data]
    let detected := inds.any (fun b => b)
    { detected := detected
      indicators_found := some (inds.count true)
      error := none
      description := if detected then "Капча обнаружена" else "Капча не обнаружена" }

/-- Lines 324-347: `check_cookie_requirements`; the two sequential GETs both
sit inside one try block, so the first raised exception takes the except
path. -/
def check_cookie_requirements (env : PEnv) : CookieCheck :=
  match env.cookiesResp1 with
  | .exn e =>
    { cookies_used := false
      cookies_count := none
      error := some e
      description := "Ошибка проверки cookies" }
  | .ok _ =>
    match env.cookiesResp2 with
    | .exn e =>
      { cookies_used := false
        cookies_count := none
        error := some e
        description := "Ошибка проверки cookies" }
    | .ok r2 =>
      { cookies_used := r2.cookiesCount > 0
        cookies_count := some r2.cookiesCount
        error := none
        description := "Используется " ++ toString r2.cookiesCount ++ " cookies" }

/-- Build one `test_bypass_methods` entry from a plain GET outcome. -/
def bypassOfOutcome (o : HttpOutcome) (descr : String) : BypassMethod :=
  match o with
  | .ok r =>
    { success := r.status == 200
      status_code := some r.status
      error := none
      description := descr }
  | .exn e =>
    { success := false
      status_code := none
      error := some e
      description := descr }

/-- Lines 349-441: `test_bypass_methods`; methods whose library is missing
are skipped entirely (their key never enters the dict). -/
def test_bypass_methods (env : PEnv) : List (String × BypassMethod) :=
  [("requests", bypassOfOutcome env.bypassReq "Стандартный requests"),
   ("requests_session", bypassOfOutcome env.bypassSession "Requests с сессией")]
  ++ (if env.uaAvailable then
        [("fake_useragent", bypassOfOutcome env.bypassFakeUA "Fake User-Agent")]
      else [])
  ++ (if env.cloudscraperAvailable then
        [("cloudscraper", bypassOfOutcome env.bypassCloud "CloudScraper")]
      else [])
  ++ (if env.seleniumAvailable then
        [("undetected_chrome",
          match env.bypassChrome with
          | .ok noErrorMarker =>
            { success := noErrorMarker
              status_code := none
              error := none
              description := "Undetected Chrome" }
          | .error e =>
            { success := false
              status_code := none
              error := some e
              description := "Undetected Chrome" })]
      else [])

/-- Lines 519-521: `sum(mechanism['score'] for mechanism in
results['mechanisms'].values())`. -/
def sumScores (ms : List (String × Mechanism)) : Nat :=
  (ms.map (fun p => p.2.score)).sum

/-- Lines 524-531: the complexity-tier chain on the normal path. -/
def complexityLevelOf (total : Nat) : String :=
  if total ≥ 80 then "CRITICAL"
  else if total ≥ 60 then "HIGH"
  else if total ≥ 40 then "MEDIUM"
  else "LOW"

/-- Lines 467-546 of `analyze`: the continuation once basic access
succeeded (translated as a separate definition so the short-circuit at line
462 stays a plain `if`). -/
def analyzeRest (env : PEnv) (basicMech : Mechanism) : PReport :=
  let ua := check_user_agent_protection env
  let rate := check_rate_limiting env
  let cf := check_cloudflare_protection env
  let js := check_javascript_protection env
  let cap := check_captcha_protection env
  let ck := check_cookie_requirements env
  let mechs : List (String × Mechanism) :=
    [("basic_access", basicMech),
     ("user_agent",
      { detected := ua.protection_detected
        score := if ua.protection_detected then 20 else 5
        description := ua.description }),
     ("rate_limiting",
      { detected := rate.protection_detected
        score := if rate.protection_detected then 15 else 5
        description := rate.description }),
     ("cloudflare",
      { detected := cf.detected
        score := if cf.detected then 25 else 0
        description := cf.description }),
     ("javascript",
      { detected := js.js_required
        score := if js.js_required then 30 else 10
        description := js.description }),
     ("captcha",
      { detected := cap.detected
        score := if cap.detected then 40 else 0
        description := cap.description }),
     ("cookies",
      { detected := ck.cookies_used
        score := if ck.cookies_used then 10 else 5
        description := ck.description })]
  let bypass := test_bypass_methods env
  let total := sumScores mechs
  let successful := (bypass.filter (fun p => p.2.success)).map Prod.fst
  { url := env.url
    mechanisms := mechs
    bypass_methods := bypass
    total_score := total
    complexity_level := complexityLevelOf total
    best_method := some (match successful with | [] => "selenium" | m :: _ => m)
    bypass_successes := some (successful.length, bypass.length)
    complexity_score := none }

/-- Lines 443-546: `ProtectionAnalyzer.analyze`.  If basic access fails the
init dict is returned with `total_score` forced to 100 and the tier to
CRITICAL; only the basic_access finding has been recorded at that point
(lines 455-465). -/
def analyze (env : PEnv) : PReport :=
  let basic := check_basic_access env.basicResp
  let basicMech : Mechanism :=
    { detected := basic.accessible
      score := if basic.accessible then 10 else 0
      description := "Статус: " ++ toString basic.status_code ++ ", Размер: "
        ++ toString basic.content_length ++ " байт" }
  if basic.accessible then
    analyzeRest env basicMech
  else
    { url := env.url
      mechanisms := [("basic_access", basicMech)]
      bypass_methods := []
      total_score := 100
      complexity_level := "CRITICAL"
      best_method := none
      bypass_successes := none
      complexity_score := none }

end ProtectionAnalyzer

/-! ### Concrete protection environments used by counterexamples and witnesses -/

/-- A benign 200 response with empty body, no headers, no cookies. -/
def okEmptyResp : HttpResponse :=
  { status := 200, text := [], headers := [], cookiesCount := 0 }

/-- Environment in which every probe succeeds with a benign 200 response and
no optional library is installed. -/
def allOkEnv : PEnv :=
  { url := "https://example.com"
    uaAvailable := false
    cloudscraperAvailable := false
    seleniumAvailable := false
    basicResp := .ok okEmptyResp
    uaResp := fun _ => .ok okEmptyResp
    rateResp := fun _ => .ok okEmptyResp
    cfResp := .ok okEmptyResp
    jsResp := .ok okEmptyResp
    jsSelenium := .ok false
    captchaResp := .ok okEmptyResp
    cookiesResp1 := .ok okEmptyResp
    cookiesResp2 := .ok okEmptyResp
    bypassReq := .ok okEmptyResp
    bypassSession := .ok okEmptyResp
    bypassFakeUA := .ok okEmptyResp
    bypassCloud := .ok okEmptyResp
    bypassChrome := .ok true }

/-- Environment whose very first basic-access GET raises (e.g. DNS failure). -/
def dnsFailEnv : PEnv := { allOkEnv with basicResp := .exn "dns failure" }

/-- Environment where basic access succeeds but every later probe raises. -/
def allProbesFailEnv : PEnv :=
  { allOkEnv with
    uaResp := fun _ => .exn "boom"
    rateResp := fun _ => .exn "boom"
    cfResp := .exn "boom"
    jsResp := .exn "boom"
    jsSelenium := .error "boom"
    captchaResp := .exn "boom"
    cookiesResp1 := .exn "boom"
    cookiesResp2 := .exn "boom"
    bypassReq := .exn "boom"
    bypassSession := .exn "boom"
    bypassFakeUA := .exn "boom"
    bypassCloud := .exn "boom"
    bypassChrome := .error "boom" }

/-- A body that trips three of the five JavaScript fallback indicators. -/
def jsBody : HttpResponse :=
  { status := 200
    text := "javascript loading please wait".data
    headers := []
    cookiesCount := 0 }

/-- Environment with a benign basic access whose JavaScript probe returns
`jsBody` and no Selenium installed. -/
def jsHeuristicEnv : PEnv := { allOkEnv with jsResp := .ok jsBody }


/-! ### utils.py — validate_url (lines 63-111) -/

namespace Utils

/-- Python's default str.strip() whitespace set (ASCII part). -/
def pyIsSpace (c : Char) : Bool :=
  c == ' ' || c == '\t' || c == '\n' || c == '\r' ||
    c == Char.ofNat 11 || c == Char.ofNat 12

/-- `url.strip()`. -/
def pyStrip (l : List Char) : List Char :=
  ((l.dropWhile pyIsSpace).reverse.dropWhile pyIsSpace).reverse

/-- The literal scheme `'http://'`. -/
def httpStart : List Char := "http://".data

/-- The literal scheme `'https://'`. -/
def httpsStart : List Char := "https://".data

/-- `urlparse(u).netloc` for a URL that starts with `http://` or
`https://`: the characters after the `//` up to the first of `/`, `?`, `#`. -/
def netlocOf (u : List Char) : List Char :=
  let rest := if httpsStart.isPrefixOf u then u.drop 8 else u.drop 7
  rest.takeWhile (fun c => !(c == '/' || c == '?' || c == '#'))

/-- An ASCII alphanumeric character (the regex class `[a-zA-Z0-9]`). -/
def isAlnum (c : Char) : Bool :=
  ('a' ≤ c && c ≤ 'z') || ('A' ≤ c && c ≤ 'Z') || ('0' ≤ c && c ≤ '9')

/-- The regex class `[a-zA-Z0-9\-]`. -/
def isLabelChar (c : Char) : Bool := isAlnum c || c == '-'

/-- One DNS label per the source's `domain_pattern` regex:
`[a-zA-Z0-9]([a-zA-Z0-9\-]{0,61}[a-zA-Z0-9])?`. -/
def labelOk (l : List Char) : Bool :=
  match l with
  | [] => false
  | c :: rest =>
    match rest.reverse with
    | [] => isAlnum c
    | lastc :: midrev =>
      isAlnum c && isAlnum lastc && midrev.all isLabelChar && midrev.length ≤ 61

/-- Split on `'.'` (Python `'.'`-separated regex groups `(\.label)*`). -/
def splitDot : List Char → List (List Char)
  | [] => [[]]
  | c :: cs =>
    if c == '.' then [] :: splitDot cs
    else
      match splitDot cs with
      | [] => [[c]]
      | g :: gs => (c :: g) :: gs

/-- The anchored `domain_pattern` regex of lines 100-103 applied to a whole
host string: a dot-separated sequence of valid labels. -/
def domainOk (host : List Char) : Bool := (splitDot host).all labelOk

/-- Lines 63-111: `validate_url`.  The argument is `none` when the caller
passes `None` or a non-string (the `isinstance` guard); a raised
`ValueError` is the `.error` channel, carrying the message (errors raised
inside the inner try block are re-wrapped by line 111, which the modelled
messages reflect).  After normalization the URL starts with a literal
`http://`/`https://`, so `urlparse` yields the scheme `http`/`https` and the
netloc modelled by `netlocOf`; the domain regex is checked against
`netloc.split(':')[0]`. -/
def validate_url (input : Option (List Char)) : Except (List Char) (List Char) :=
  match input with
  | none => .error "URL не может быть пустым".data
  | some url0 =>
    if url0.isEmpty then .error "URL не может быть пустым".data
    else
      let url1 := pyStrip url0
      let url2 :=
        if httpStart.isPrefixOf url1 || httpsStart.isPrefixOf url1 then url1
        else httpsStart ++ url1
      let netloc := netlocOf url2
      if netloc.isEmpty then
        .error "Ошибка валидации URL: Невалидный URL: отсутствует домен".data
      else if !(httpStart.isPrefixOf url2 || httpsStart.isPrefixOf url2) then
        .error "Ошибка валидации URL: Поддерживаются только HTTP и HTTPS схемы".data
      else if !(domainOk (netloc.takeWhile (fun c => !(c == ':')))) then
        .error "Ошибка валидации URL: Невалидный формат домена".data
      else
        .ok url2

end Utils


/-! ### structure_analyzer.py — data model

BeautifulSoup is an external collaborator: a parsed document is modelled as
a record of query oracles (`select` may raise, which the source swallows
per selector).  Elements carry an identity key (`bs4` node equality used by
the `set()` dedup in detect_content_types) and their `get_text()` string. -/

/-- A DOM node as observed through the query interface. -/
structure Element where
  key : Nat
  text : String
deriving DecidableEq

/-- A parsed document: `soup.select css`, and the keyword searches
`soup.find_all(attrs={'class': re.compile(kw, re.I)})` /
`soup.find_all(attrs={'id': re.compile(kw, re.I)})`. -/
structure Doc where
  select : String → Except String (List Element)
  classKeyword : String → List Element
  idKeyword : String → List Element

/-- One entry of a suggested-selectors candidate list.  Synthesis candidates
(lines 374-378) carry `sample_text`; common-selector entries (lines 401-405)
carry `description` instead; both dict shapes share this record with the
respectively unassigned key as `none`. -/
structure SelCand where
  selector : String
  count : Nat
  sample_text : Option String
  description : Option String
deriving DecidableEq

/-- The result dict of `StructureAnalyzer.analyze`.  On the except path
(lines 496-499) only `url`, `error` and `success` are assigned.  The normal
path assigns many further analysis keys (title, DOM statistics, link/script
summaries, performance floats); no claim mentions those, and none of them
can escape the function's try/except either way, so only the claim-relevant
keys `content_types` and `suggested_selectors` are carried in the model. -/
structure StructReport where
  url : String
  error : Option String
  success : Option Bool
  content_types : Option (List (String × Nat))
  suggested_selectors : Option (List (String × List SelCand))
deriving DecidableEq

/-- Environment of one `StructureAnalyzer.analyze` run: `get_page_content`
either produces a parsed document or raises (network error, non-2xx status
via raise_for_status, or parse failure). -/
structure SEnv where
  url : String
  fetch : Except String Doc

namespace StructureAnalyzer

/-- Lines 161-213: the selector and keyword tables of
`detect_content_types`, in source order. -/
def ctPatterns : List (String × List String × List String) :=
  [("products",
    (["[class*=\"product\"]", "[class*=\"item\"]", "[class*=\"card\"]",
      "[data-product]", "[data-item]", "[itemtype*=\"Product\"]",
      "[class*=\"goods\"]", "[class*=\"catalog\"]"],
     ["price", "buy", "cart", "product", "item", "товар", "цена"])),
   ("articles",
    (["article", "[class*=\"article\"]", "[class*=\"post\"]",
      "[class*=\"news\"]", "[class*=\"blog\"]", "[class*=\"content\"]"],
     ["read", "article", "post", "news", "blog", "статья", "новости"])),
   ("navigation",
    (["nav", "[class*=\"nav\"]", "[class*=\"menu\"]",
      "[class*=\"breadcrumb\"]", "[role=\"navigation\"]",
      "ul.menu", "ul.nav"],
     ["menu", "navigation", "nav", "breadcrumb", "меню", "навигация"])),
   ("forms",
    (["form", "[class*=\"form\"]", "[class*=\"search\"]",
      "[class*=\"contact\"]", "[class*=\"subscribe\"]", "input", "textarea"],
     ["form", "search", "contact", "subscribe", "login", "форма", "поиск"])),
   ("lists",
    (["[class*=\"list\"]", "[class*=\"grid\"]", "[class*=\"catalog\"]",
      "ul", "ol", "[class*=\"items\"]", "table"],
     ["list", "grid", "catalog", "items", "collection", "список", "каталог"])),
   ("media",
    (["img", "video", "audio", "[class*=\"image\"]",
      "[class*=\"photo\"]", "[class*=\"gallery\"]", "picture"],
     ["image", "photo", "gallery", "video", "media", "изображение", "фото"])),
   ("text_content",
    (["p", "div", "span", "[class*=\"text\"]",
      "[class*=\"description\"]", "[class*=\"content\"]"],
     ["text", "description", "content", "paragraph", "текст", "описание"]))]

/-- Size of a `set()` of nodes: the number of distinct identity keys. -/
def distinctCount : List Nat → List Nat → Nat
  | [], _ => 0
  | k :: ks, seen => if k ∈ seen then distinctCount ks seen else 1 + distinctCount ks (k :: seen)

/-- Lines 215-236 body: the union set `elements_found` for one content type
(selector hits, with raising selectors skipped, plus class- and id-keyword
hits), counted with set dedup. -/
def elementsFoundCount (doc : Doc) (sels kws : List String) : Nat :=
  let fromSels := sels.foldl (fun acc s =>
    match doc.select s with
    | .ok es => acc ++ es
    | .error _ => acc) []
  let fromKws := kws.foldl (fun acc k => acc ++ doc.classKeyword k ++ doc.idKeyword k) []
  distinctCount (((fromSels ++ fromKws).map Element.key)) []

/-- Lines 155-238: `detect_content_types`. -/
def detect_content_types (doc : Doc) : List (String × Nat) :=
  ctPatterns.map (fun t => (t.1, elementsFoundCount doc t.2.1 t.2.2))

/-- Lines 359-365: the reduced pattern table of `generate_selectors`. -/
def content_patterns : List (String × List String) :=
  [("products", ["[class*=\"product\"]", "[class*=\"item\"]", "[class*=\"card\"]"]),
   ("articles", ["article", "[class*=\"article\"]", "[class*=\"post\"]"]),
   ("navigation", ["nav", "[class*=\"menu\"]", "[class*=\"nav\"]"]),
   ("forms", ["form", "[class*=\"form\"]"]),
   ("lists", ["ul", "ol", "[class*=\"list\"]"])]

/-- Lines 370-380: the per-pattern loop building `type_selectors` for one
category: raising selectors are skipped, empty matches contribute nothing,
and a hit records the selector, its match count and the stripped first
match's text truncated to 100 characters, in pattern order. -/
def synthCategory (doc : Doc) : List String → List SelCand
  | [] => []
  | pat :: rest =>
    (match doc.select pat with
     | .error _ => []
     | .ok [] => []
     | .ok (e :: es) =>
       [{ selector := pat
          count := (e :: es).length
          sample_text := some (String.mk ((Utils.pyStrip e.text.data).take 100))
          description := none }])
    ++ synthCategory doc rest

/-- Line 383: `sorted(type_selectors, key=lambda x: x['count'],
reverse=True)`.  Python's sort is stable; with the reversed comparison this
is exactly insertion by `b.count ≤ a.count`. -/
def pySortDescByCount (l : List SelCand) : List SelCand :=
  List.insertionSort (fun a b => b.count ≤ a.count) l

/-- Lines 382-383: the category key enters the dict only when
`type_selectors` is nonempty. -/
def synthEntry (doc : Doc) (name : String) (pats : List String) :
    List (String × List SelCand) :=
  let tys := synthCategory doc pats
  if tys.isEmpty then [] else [(name, pySortDescByCount tys)]

/-- Lines 397-407: one common-selector entry, keyed `common_<name>`,
present only when the selector matches at least one element (raising
selectors skipped). -/
def commonEntry (doc : Doc) (name sel : String) : List (String × List SelCand) :=
  match doc.select sel with
  | .error _ => []
  | .ok [] => []
  | .ok es =>
    [("common_" ++ name,
      [{ selector := sel
         count := es.length
         sample_text := none
         description := some ("Все " ++ name.replace "_" " ") }])]

/-- Lines 353-409: `generate_selectors` (its `content_types` argument is
unused in the source as well). -/
def generate_selectors (doc : Doc) (content_types : List (String × Nat)) :
    List (String × List SelCand) :=
  synthEntry doc "products" ["[class*=\"product\"]", "[class*=\"item\"]", "[class*=\"card\"]"]
  ++ synthEntry doc "articles" ["article", "[class*=\"article\"]", "[class*=\"post\"]"]
  ++ synthEntry doc "navigation" ["nav", "[class*=\"menu\"]", "[class*=\"nav\"]"]
  ++ synthEntry doc "forms" ["form", "[class*=\"form\"]"]
  ++ synthEntry doc "lists" ["ul", "ol", "[class*=\"list\"]"]
  ++ commonEntry doc "all_links" "a[href]"
  ++ commonEntry doc "all_images" "img[src]"
  ++ commonEntry doc "all_forms" "form"
  ++ commonEntry doc "all_inputs" "input, textarea, select"
  ++ commonEntry doc "headings" "h1, h2, h3, h4, h5, h6"
  ++ commonEntry doc "paragraphs" "p"
  ++ commonEntry doc "lists" "ul, ol"
  ++ commonEntry doc "tables" "table"

/-- Lines 447-499: `StructureAnalyzer.analyze`.  `get_page_content` (lines
49-63) re-wraps any failure as `Exception('Ошибка загрузки страницы: ...')`;
the outer try/except of `analyze` catches it and RETURNS the base dict with
`error` and `success=False` — nothing is raised out of `analyze`. -/
def analyze (env : SEnv) : StructReport :=
  match env.fetch with
  | .error e =>
    { url := env.url
      error := some ("Ошибка загрузки страницы: " ++ e)
      success := some false
      content_types := none
      suggested_selectors := none }
  | .ok doc =>
    let cts := detect_content_types doc
    { url := env.url
      error := none
      success := none
      content_types := some cts
      suggested_selectors := some (generate_selectors doc cts) }

end StructureAnalyzer

/-! ### Claim C4 — structure analyzer fetch failure -/

/-- The environment of a run whose fetch raises. -/
def fetchFailEnv : SEnv := { url := "https://example.com", fetch := .error "DNS failure" }

/-- A selector query produced no elements: zero matches, or the selector
raised (skipped by the source's try/except with continue). -/
def selNoMatch (r : Except String (List Element)) : Prop :=
  match r with
  | .ok es => es = []
  | .error _ => True

/-- A parsed document where every selector matches nothing and no keyword
hits anything. -/
def emptyDoc : Doc :=
  { select := fun _ => .ok []
    classKeyword := fun _ => []
    idKeyword := fun _ => [] }

/-- Index of the first occurrence of a pattern in a category's pattern
list (first-encountered order). -/
def idxOf : List String → String → Nat
  | [], _ => 0
  | p :: ps, s => if p = s then 0 else 1 + idxOf ps s

/-- The ordering C9 claims for a category's candidate list: match counts
descending, and on a tie the first-encountered pattern first. -/
def stepRel (pats : List String) (a b : SelCand) : Prop :=
  b.count < a.count ∨ (a.count = b.count ∧ idxOf pats a.selector < idxOf pats b.selector)

/-- A document where "product" and "item" patterns tie on two matches and
"card" wins with three: exercises both the descending order and the
stability tie-break. -/
def tieDoc : Doc :=
  { select := fun s =>
      if s = "[class*=\"product\"]" then .ok [{ key := 1, text := "" }, { key := 2, text := "" }]
      else if s = "[class*=\"item\"]" then .ok [{ key := 3, text := "" }, { key := 4, text := "" }]
      else if s = "[class*=\"card\"]" then
        .ok [{ key := 5, text := "" }, { key := 6, text := "" }, { key := 7, text := "" }]
      else .ok []
    classKeyword := fun _ => []
    idKeyword := fun _ => [] }

/-- The products candidates for `tieDoc`: card (3 matches) first, then the
tied product and item (2 each) in pattern order. -/
def tieCands : List SelCand :=
  [{ selector := "[class*=\"card\"]", count := 3, sample_text := some "", description := none },
   { selector := "[class*=\"product\"]", count := 2, sample_text := some "", description := none },
   { selector := "[class*=\"item\"]", count := 2, sample_text := some "", description := none }]

/-! ### comprehensive_analyzer.py — recommendation synthesizer -/

/-- The combined results dict built by `analyze_website` as seen by
`_generate_recommendations`: the protection and structure reports are
present according to the requested analysis type.  (The translation step
`_translate_protection_results`, lines 106-153, only copies the dict and
adds `*_localized` keys, so the score-bearing keys reach the synthesizer
unchanged.)  The dict key `structure` is spelled `structureReport` because
`structure` is a Lean keyword. -/
structure CombinedResults where
  protection : Option PReport
  structureReport : Option StructReport

/-- Truthiness of `structure.get('content_types', {}).get(k)`: a present
nonzero tally. -/
def ctTruthy (cts : Option (List (String × Nat))) (k : String) : Bool :=
  match cts with
  | none => false
  | some l =>
    match l.lookup k with
    | some n => n != 0
    | none => false

namespace ComprehensiveWebsiteAnalyzer

/-- Lines 205-264: `_generate_recommendations`.  The global
`get_current_language()` is the `lang` parameter.  NOTE (faithful to the
source): line 212 reads `protection.get('complexity_score', 0)` — but the
protection report's score key is `total_score`; `complexity_score` is never
assigned by protection_analyzer.py, so the read falls back to its default 0
(`Option.getD 0` on the always-`none` field of the model). -/
def generate_recommendations (lang : String) (results : CombinedResults) : List String :=
  (match results.protection with
   | none => []
   | some protection =>
     let complexity_score := protection.complexity_score.getD 0
     if complexity_score < 40 then
       if lang = "ru" then
         ["✅ Простой парсинг: используйте requests + BeautifulSoup",
          "🔧 Добавьте User-Agent заголовки для стабильности"]
       else
         ["✅ Simple scraping: use requests + BeautifulSoup",
          "🔧 Add User-Agent headers for stability"]
     else if complexity_score < 60 then
       if lang = "ru" then
         ["⚠️ Средняя сложность: требуется cloudscraper или fake-useragent",
          "🛡️ Добавьте задержки между запросами"]
       else
         ["⚠️ Medium complexity: requires cloudscraper or fake-useragent",
          "🛡️ Add delays between requests"]
     else if complexity_score < 80 then
       if lang = "ru" then
         ["🚨 Высокая сложность: обязательно Selenium или undetected-chrome",
          "🔄 Используйте ротацию прокси и User-Agent"]
       else
         ["🚨 High complexity: mandatory Selenium or undetected-chrome",
          "🔄 Use proxy and User-Agent rotation"]
     else
       if lang = "ru" then
         ["💥 Критическая защита: нужны продвинутые методы обхода",
          "🤖 Рассмотрите использование капча-сервисов",
          "⏱️ Значительные задержки и ручная обработка"]
       else
         ["💥 Critical protection: need advanced bypass methods",
          "🤖 Consider using captcha-solving services",
          "⏱️ Significant delays and manual processing"])
  ++
  (match results.structureReport with
   | none => []
   | some st =>
     (if ctTruthy st.content_types "products" then
        if lang = "ru" then ["🛒 Обнаружены товары: используйте готовые селекторы"]
        else ["🛒 Products detected: use provided selectors"]
      else [])
     ++
     (if ctTruthy st.content_types "pagination" then
        if lang = "ru" then ["📄 Пагинация найдена: автоматизируйте переход по страницам"]
        else ["📄 Pagination found: automate page navigation"]
      else []))

end ComprehensiveWebsiteAnalyzer


/-! ### The claims -/

/-! ### Claims C1, C2, C3, C6, C8 — protection analyzer -/

/-- Helper for C2: the tier chain of lines 524-531 is the 40/60/80 step
function. -/
theorem complexityLevelOf_spec (t : Nat) :
    (80 ≤ t → ProtectionAnalyzer.complexityLevelOf t = "CRITICAL") ∧
    (60 ≤ t ∧ t < 80 → ProtectionAnalyzer.complexityLevelOf t = "HIGH") ∧
    (40 ≤ t ∧ t < 60 → ProtectionAnalyzer.complexityLevelOf t = "MEDIUM") ∧
    (t < 40 → ProtectionAnalyzer.complexityLevelOf t = "LOW") := by
  unfold ProtectionAnalyzer.complexityLevelOf
  refine ⟨fun h => ?_, fun h => ?_, fun h => ?_, fun h => ?_⟩ <;>
    split_ifs <;> first | rfl | omega

/-- C1: if the basic-access probe reports the URL inaccessible,
`ProtectionAnalyzer.analyze` short-circuits: total_score is forced to 100,
the tier to CRITICAL, and the mechanisms mapping holds exactly the
`basic_access` finding, whose `detected` is false; no other mechanism key is
recorded. -/
theorem protection_shortCircuit_on_inaccessible (env : PEnv)
    (h : (ProtectionAnalyzer.check_basic_access env.basicResp).accessible = false) :
    (ProtectionAnalyzer.analyze env).total_score = 100 ∧
    (ProtectionAnalyzer.analyze env).complexity_level = "CRITICAL" ∧
    (ProtectionAnalyzer.analyze env).mechanisms.map Prod.fst = ["basic_access"] ∧
    ∀ m ∈ (ProtectionAnalyzer.analyze env).mechanisms, m.2.detected = false := by
  simp [ProtectionAnalyzer.analyze, h]

/-- Witness for C1 at the concrete DNS-failure environment. -/
theorem protection_shortCircuit_witness :
    (ProtectionAnalyzer.check_basic_access dnsFailEnv.basicResp).accessible = false ∧
    ((ProtectionAnalyzer.analyze dnsFailEnv).total_score = 100 ∧
     (ProtectionAnalyzer.analyze dnsFailEnv).complexity_level = "CRITICAL" ∧
     (ProtectionAnalyzer.analyze dnsFailEnv).mechanisms.map Prod.fst = ["basic_access"] ∧
     ∀ m ∈ (ProtectionAnalyzer.analyze dnsFailEnv).mechanisms, m.2.detected = false) :=
  ⟨by decide, protection_shortCircuit_on_inaccessible dnsFailEnv (by decide)⟩

/-- C2: on the normal (basic access succeeded) path the complexity tier of
the returned report is the 40/60/80 step function of its total_score. -/
theorem protection_tier_step_function (env : PEnv)
    (h : (ProtectionAnalyzer.check_basic_access env.basicResp).accessible = true) :
    (80 ≤ (ProtectionAnalyzer.analyze env).total_score →
      (ProtectionAnalyzer.analyze env).complexity_level = "CRITICAL") ∧
    (60 ≤ (ProtectionAnalyzer.analyze env).total_score ∧
        (ProtectionAnalyzer.analyze env).total_score < 80 →
      (ProtectionAnalyzer.analyze env).complexity_level = "HIGH") ∧
    (40 ≤ (ProtectionAnalyzer.analyze env).total_score ∧
        (ProtectionAnalyzer.analyze env).total_score < 60 →
      (ProtectionAnalyzer.analyze env).complexity_level = "MEDIUM") ∧
    ((ProtectionAnalyzer.analyze env).total_score < 40 →
      (ProtectionAnalyzer.analyze env).complexity_level = "LOW") := by
  have hlvl : (ProtectionAnalyzer.analyze env).complexity_level =
      ProtectionAnalyzer.complexityLevelOf (ProtectionAnalyzer.analyze env).total_score := by
    simp only [ProtectionAnalyzer.analyze, h, if_true]
    rfl
  rw [hlvl]
  exact complexityLevelOf_spec _

/-- Witness for C2 at the benign all-200 environment (total_score 35 → LOW). -/
theorem protection_tier_step_witness :
    (ProtectionAnalyzer.check_basic_access allOkEnv.basicResp).accessible = true ∧
    (ProtectionAnalyzer.analyze allOkEnv).total_score < 40 ∧
    (ProtectionAnalyzer.analyze allOkEnv).complexity_level = "LOW" :=
  ⟨by decide, by decide,
    (protection_tier_step_function allOkEnv (by decide)).2.2.2 (by decide)⟩

/-- Counterexample to C3 as stated: in the benign environment the returned
total_score is 35, but the sum of the recorded mechanism scores with
basic_access excluded is only 25 — the basic_access score (10) IS part of
the sum on the normal path (line 519 sums over every recorded mechanism). -/
theorem protection_total_excludes_basic_cex :
    (ProtectionAnalyzer.analyze allOkEnv).total_score = 35 ∧
    ProtectionAnalyzer.sumScores
      ((ProtectionAnalyzer.analyze allOkEnv).mechanisms.filter
        (fun p => p.1 != "basic_access")) = 25 := by
  decide

/-- C3 amended: on the normal path the total_score equals the sum of ALL
recorded mechanism scores, basic_access included (it contributes 10). -/
theorem protection_total_score_sums_all (env : PEnv)
    (h : (ProtectionAnalyzer.check_basic_access env.basicResp).accessible = true) :
    (ProtectionAnalyzer.analyze env).total_score =
      ProtectionAnalyzer.sumScores (ProtectionAnalyzer.analyze env).mechanisms := by
  simp only [ProtectionAnalyzer.analyze, h, if_true]
  rfl

/-- Witness for the amended C3 at the benign environment. -/
theorem protection_total_score_sums_all_witness :
    (ProtectionAnalyzer.check_basic_access allOkEnv.basicResp).accessible = true ∧
    (ProtectionAnalyzer.analyze allOkEnv).total_score =
      ProtectionAnalyzer.sumScores (ProtectionAnalyzer.analyze allOkEnv).mechanisms :=
  ⟨by decide, protection_total_score_sums_all allOkEnv (by decide)⟩

/-- C6: `ProtectionAnalyzer.analyze` is a total function of the probe
outcomes — it raises nothing, so in particular it raises a NetworkError only
(vacuously) in the first-probe case the claim allows; and whenever basic
access succeeds, every one of the six subsequent mechanism probes lands in
the returned report as a finding, for EVERY combination of probe outcomes,
exceptions included: a later probe failure is captured, never raised. -/
theorem protection_probe_failures_captured (env : PEnv)
    (h : (ProtectionAnalyzer.check_basic_access env.basicResp).accessible = true) :
    (ProtectionAnalyzer.analyze env).mechanisms.map Prod.fst =
      ["basic_access", "user_agent", "rate_limiting", "cloudflare",
       "javascript", "captcha", "cookies"] := by
  simp only [ProtectionAnalyzer.analyze, h, if_true]
  rfl

/-- Witness for C6 at the environment where every post-basic probe raises:
all seven findings are still recorded in the returned report. -/
theorem protection_probe_failures_captured_witness :
    (ProtectionAnalyzer.check_basic_access allProbesFailEnv.basicResp).accessible = true ∧
    (ProtectionAnalyzer.analyze allProbesFailEnv).mechanisms.map Prod.fst =
      ["basic_access", "user_agent", "rate_limiting", "cloudflare",
       "javascript", "captcha", "cookies"] :=
  ⟨by decide, protection_probe_failures_captured allProbesFailEnv (by decide)⟩

/-- C8: with no headless browser available, the JavaScript probe computes
exactly the five fallback indicators (script-tag count > 10, body contains
"loading", "please wait", "javascript" case-insensitively, body length
< 1000) and sets js_required iff at least two hold; the mechanism recorded
under "javascript" scores 30 if js_required else 10. -/
theorem js_fallback_heuristic_two_of_five (env : PEnv) (resp : HttpResponse)
    (hsel : env.seleniumAvailable = false)
    (hresp : env.jsResp = .ok resp)
    (hacc : (ProtectionAnalyzer.check_basic_access env.basicResp).accessible = true) :
    ((ProtectionAnalyzer.check_javascript_protection env).js_required = true ↔
      2 ≤ ([decide (countSub (lowerL resp.text) "<script".data > 10),
            hasSub (lowerL resp.text) "loading".data,
            hasSub (lowerL resp.text) "please wait".data,
            hasSub (lowerL resp.text) "javascript".data,
            decide (resp.text.length < 1000)].count true)) ∧
    (ProtectionAnalyzer.analyze env).mechanisms.lookup "javascript" =
      some { detected := (ProtectionAnalyzer.check_javascript_protection env).js_required
             score := if (ProtectionAnalyzer.check_javascript_protection env).js_required
                      then 30 else 10
             description := (ProtectionAnalyzer.check_javascript_protection env).description } := by
  constructor
  · simp [ProtectionAnalyzer.check_javascript_protection, hresp, hsel]
  · simp only [ProtectionAnalyzer.analyze, hacc, if_true]
    rfl

/-- Witness for C8 at a body tripping three indicators (js_required true). -/
theorem js_fallback_heuristic_witness :
    jsHeuristicEnv.seleniumAvailable = false ∧
    jsHeuristicEnv.jsResp = .ok jsBody ∧
    (ProtectionAnalyzer.check_basic_access jsHeuristicEnv.basicResp).accessible = true ∧
    (((ProtectionAnalyzer.check_javascript_protection jsHeuristicEnv).js_required = true ↔
      2 ≤ ([decide (countSub (lowerL jsBody.text) "<script".data > 10),
            hasSub (lowerL jsBody.text) "loading".data,
            hasSub (lowerL jsBody.text) "please wait".data,
            hasSub (lowerL jsBody.text) "javascript".data,
            decide (jsBody.text.length < 1000)].count true)) ∧
    (ProtectionAnalyzer.analyze jsHeuristicEnv).mechanisms.lookup "javascript" =
      some { detected := (ProtectionAnalyzer.check_javascript_protection jsHeuristicEnv).js_required
             score := if (ProtectionAnalyzer.check_javascript_protection jsHeuristicEnv).js_required
                      then 30 else 10
             description := (ProtectionAnalyzer.check_javascript_protection jsHeuristicEnv).description }) :=
  ⟨rfl, rfl, by decide,
    js_fallback_heuristic_two_of_five jsHeuristicEnv jsBody rfl rfl (by decide)⟩

/-- A list is a prefix of itself followed by anything. -/
theorem isPrefixOf_append_self (p u : List Char) : p.isPrefixOf (p ++ u) = true := by
  induction p with
  | nil => simp
  | cons c t ih => simp [List.isPrefixOf_cons₂, ih]

/-- A list carrying an `http://` or `https://` scheme prefix is nonempty. -/
theorem ne_nil_of_scheme (s : List Char)
    (h : Utils.httpStart.isPrefixOf s = true ∨ Utils.httpsStart.isPrefixOf s = true) :
    s ≠ [] := by
  rcases h with h | h <;> (intro hs; subst hs; exact absurd h (by decide))

/-- C10: `validate_url` is total over its error channel: every input either
raises ValueError (`.error`) or returns a non-empty string that starts with
`http://` or `https://` — never `None`, `False` or an empty string, so the
falsy-result branch `if not validate_url(url)` in
`ComprehensiveWebsiteAnalyzer.analyze_website` can never be taken on a
returned value. -/
theorem validate_url_ok_nonempty_scheme (input : Option (List Char)) (s : List Char)
    (h : Utils.validate_url input = .ok s) :
    s ≠ [] ∧
      (Utils.httpStart.isPrefixOf s = true ∨ Utils.httpsStart.isPrefixOf s = true) := by
  cases input with
  | none => simp [Utils.validate_url] at h
  | some url0 =>
    simp only [Utils.validate_url] at h
    by_cases h0 : url0.isEmpty = true
    · simp only [if_pos h0] at h
      simp at h
    · simp only [if_neg h0] at h
      by_cases hP : (Utils.httpStart.isPrefixOf (Utils.pyStrip url0)
          || Utils.httpsStart.isPrefixOf (Utils.pyStrip url0)) = true
      · simp only [if_pos hP] at h
        split at h
        · simp at h
        · split at h
          · simp at h
          · split at h
            · simp at h
            · have hs : Utils.pyStrip url0 = s := by
                injection h
              subst hs
              have hpre := Bool.or_eq_true_iff.mp hP
              exact ⟨ne_nil_of_scheme _ hpre, hpre⟩
      · simp only [if_neg hP] at h
        split at h
        · simp at h
        · split at h
          · simp at h
          · split at h
            · simp at h
            · have hs : Utils.httpsStart ++ Utils.pyStrip url0 = s := by
                injection h
              subst hs
              have hpre : Utils.httpsStart.isPrefixOf
                  (Utils.httpsStart ++ Utils.pyStrip url0) = true :=
                isPrefixOf_append_self _ _
              exact ⟨ne_nil_of_scheme _ (Or.inr hpre), Or.inr hpre⟩

/-- Witness for C10: a bare domain gains the https scheme and is accepted. -/
theorem validate_url_witness :
    Utils.validate_url (some "example.com".data) = .ok "https://example.com".data ∧
    ("https://example.com".data ≠ [] ∧
      (Utils.httpStart.isPrefixOf "https://example.com".data = true ∨
       Utils.httpsStart.isPrefixOf "https://example.com".data = true)) :=
  ⟨rfl, validate_url_ok_nonempty_scheme (some "example.com".data)
    "https://example.com".data rfl⟩

/-- Counterexample to C4 as stated: on a fetch failure
`StructureAnalyzer.analyze` does NOT fail by raising — at this concrete
input it returns a result value (the base dict with `error` set and
`success = False`), contradicting "never returns ... rather than yielding a
result value". -/
theorem structure_fetch_failure_returns_value :
    StructureAnalyzer.analyze fetchFailEnv =
      { url := "https://example.com"
        error := some "Ошибка загрузки страницы: DNS failure"
        success := some false
        content_types := none
        suggested_selectors := none } := rfl

/-- C4 amended: when the page cannot be retrieved or parsed,
`StructureAnalyzer.analyze` raises nothing; it returns the base report with
`error` set to the wrapped failure message and `success = False`, and no
analysis key (in particular no content_types and no suggested_selectors) is
populated — so no partial analysis escapes, but as a returned value, not as
a raised FetchError. -/
theorem structure_fetch_failure_error_report (u e : String) :
    StructureAnalyzer.analyze { url := u, fetch := .error e } =
      { url := u
        error := some ("Ошибка загрузки страницы: " ++ e)
        success := some false
        content_types := none
        suggested_selectors := none } := rfl

/-! ### Association-list lookup helpers -/

/-- Lookup over append: if the key misses the left part, the right decides. -/
theorem lookup_append_of_none {β : Type} (k : String) (l1 l2 : List (String × β))
    (h : l1.lookup k = none) : (l1 ++ l2).lookup k = l2.lookup k := by
  induction l1 with
  | nil => rfl
  | cons a t ih =>
    cases a with
    | mk a1 a2 =>
      cases hk : (k == a1) with
      | true => simp [List.lookup, hk] at h
      | false =>
        simp only [List.cons_append, List.lookup, hk] at h ⊢
        exact ih h

/-- Lookup over append: a hit in the left part wins. -/
theorem lookup_append_of_some {β : Type} (k : String) (l1 l2 : List (String × β))
    (v : β) (h : l1.lookup k = some v) : (l1 ++ l2).lookup k = some v := by
  induction l1 with
  | nil => cases h
  | cons a t ih =>
    cases a with
    | mk a1 a2 =>
      cases hk : (k == a1) with
      | true =>
        simp only [List.lookup, hk] at h
        simp only [List.cons_append, List.lookup, hk]
        exact h
      | false =>
        simp only [List.lookup, hk] at h
        simp only [List.cons_append, List.lookup, hk]
        exact ih h

/-- Lookup over append when both parts miss. -/
theorem lookup_append_none_none {β : Type} (k : String) (l1 l2 : List (String × β))
    (h1 : l1.lookup k = none) (h2 : l2.lookup k = none) :
    (l1 ++ l2).lookup k = none := by
  rw [lookup_append_of_none _ _ _ h1]
  exact h2

/-- Lookup over append when the right part misses. -/
theorem lookup_append_right_none {β : Type} (k : String) (l1 l2 : List (String × β))
    (h : l2.lookup k = none) : (l1 ++ l2).lookup k = l1.lookup k := by
  cases hl : l1.lookup k with
  | some v => exact lookup_append_of_some _ _ _ _ hl
  | none => rw [lookup_append_of_none _ _ _ hl, h]

/-- A synthesis entry for a key other than its own yields nothing. -/
theorem lookup_synthEntry_ne (doc : Doc) (name : String) (pats : List String)
    (k : String) (h : (k == name) = false) :
    (StructureAnalyzer.synthEntry doc name pats).lookup k = none := by
  simp only [StructureAnalyzer.synthEntry]
  split
  · rfl
  · simp [List.lookup, h]

/-- A common entry never answers for a key other than `common_<name>`. -/
theorem lookup_commonEntry_ne (doc : Doc) (cname sel : String)
    (k : String) (h : (k == ("common_" ++ cname)) = false) :
    (StructureAnalyzer.commonEntry doc cname sel).lookup k = none := by
  unfold StructureAnalyzer.commonEntry
  split
  · rfl
  · rfl
  · simp [List.lookup, h]

/-- A synthesis entry looked up at its own key: absent when the category's
candidate list is empty, else the stably sorted candidates. -/
theorem lookup_synthEntry_self (doc : Doc) (name : String) (pats : List String) :
    (StructureAnalyzer.synthEntry doc name pats).lookup name =
      if (StructureAnalyzer.synthCategory doc pats).isEmpty then none
      else some (StructureAnalyzer.pySortDescByCount
        (StructureAnalyzer.synthCategory doc pats)) := by
  simp only [StructureAnalyzer.synthEntry]
  split
  · rfl
  · simp [List.lookup]

/-- Looking a synthesis-category key up in the whole suggested-selectors
dict reduces to that category's own entry: no other entry carries its key. -/
theorem lookup_generate_selectors (doc : Doc) (cts : List (String × Nat))
    (name : String) (pats : List String)
    (hmem : (name, pats) ∈ StructureAnalyzer.content_patterns) :
    (StructureAnalyzer.generate_selectors doc cts).lookup name =
      (StructureAnalyzer.synthEntry doc name pats).lookup name := by
  simp only [StructureAnalyzer.content_patterns] at hmem
  simp at hmem
  rcases hmem with ⟨rfl, rfl⟩ | ⟨rfl, rfl⟩ | ⟨rfl, rfl⟩ | ⟨rfl, rfl⟩ | ⟨rfl, rfl⟩
  · simp only [StructureAnalyzer.generate_selectors]
    rw [lookup_append_right_none _ _ _ (lookup_commonEntry_ne doc "tables" "table" "products" (by decide)),
        lookup_append_right_none _ _ _ (lookup_commonEntry_ne doc "lists" "ul, ol" "products" (by decide)),
        lookup_append_right_none _ _ _ (lookup_commonEntry_ne doc "paragraphs" "p" "products" (by decide)),
        lookup_append_right_none _ _ _ (lookup_commonEntry_ne doc "headings" "h1, h2, h3, h4, h5, h6" "products" (by decide)),
        lookup_append_right_none _ _ _ (lookup_commonEntry_ne doc "all_inputs" "input, textarea, select" "products" (by decide)),
        lookup_append_right_none _ _ _ (lookup_commonEntry_ne doc "all_forms" "form" "products" (by decide)),
        lookup_append_right_none _ _ _ (lookup_commonEntry_ne doc "all_images" "img[src]" "products" (by decide)),
        lookup_append_right_none _ _ _ (lookup_commonEntry_ne doc "all_links" "a[href]" "products" (by decide)),
        lookup_append_right_none _ _ _ (lookup_synthEntry_ne doc "lists" _ "products" (by decide)),
        lookup_append_right_none _ _ _ (lookup_synthEntry_ne doc "forms" _ "products" (by decide)),
        lookup_append_right_none _ _ _ (lookup_synthEntry_ne doc "navigation" _ "products" (by decide)),
        lookup_append_right_none _ _ _ (lookup_synthEntry_ne doc "articles" _ "products" (by decide))]
  · simp only [StructureAnalyzer.generate_selectors]
    rw [lookup_append_right_none _ _ _ (lookup_commonEntry_ne doc "tables" "table" "articles" (by decide)),
        lookup_append_right_none _ _ _ (lookup_commonEntry_ne doc "lists" "ul, ol" "articles" (by decide)),
        lookup_append_right_none _ _ _ (lookup_commonEntry_ne doc "paragraphs" "p" "articles" (by decide)),
        lookup_append_right_none _ _ _ (lookup_commonEntry_ne doc "headings" "h1, h2, h3, h4, h5, h6" "articles" (by decide)),
        lookup_append_right_none _ _ _ (lookup_commonEntry_ne doc "all_inputs" "input, textarea, select" "articles" (by decide)),
        lookup_append_right_none _ _ _ (lookup_commonEntry_ne doc "all_forms" "form" "articles" (by decide)),
        lookup_append_right_none _ _ _ (lookup_commonEntry_ne doc "all_images" "img[src]" "articles" (by decide)),
        lookup_append_right_none _ _ _ (lookup_commonEntry_ne doc "all_links" "a[href]" "articles" (by decide)),
        lookup_append_right_none _ _ _ (lookup_synthEntry_ne doc "lists" _ "articles" (by decide)),
        lookup_append_right_none _ _ _ (lookup_synthEntry_ne doc "forms" _ "articles" (by decide)),
        lookup_append_right_none _ _ _ (lookup_synthEntry_ne doc "navigation" _ "articles" (by decide))]
    exact lookup_append_of_none _ _ _ (lookup_synthEntry_ne doc "products" _ "articles" (by decide))
  · simp only [StructureAnalyzer.generate_selectors]
    rw [lookup_append_right_none _ _ _ (lookup_commonEntry_ne doc "tables" "table" "navigation" (by decide)),
        lookup_append_right_none _ _ _ (lookup_commonEntry_ne doc "lists" "ul, ol" "navigation" (by decide)),
        lookup_append_right_none _ _ _ (lookup_commonEntry_ne doc "paragraphs" "p" "navigation" (by decide)),
        lookup_append_right_none _ _ _ (lookup_commonEntry_ne doc "headings" "h1, h2, h3, h4, h5, h6" "navigation" (by decide)),
        lookup_append_right_none _ _ _ (lookup_commonEntry_ne doc "all_inputs" "input, textarea, select" "navigation" (by decide)),
        lookup_append_right_none _ _ _ (lookup_commonEntry_ne doc "all_forms" "form" "navigation" (by decide)),
        lookup_append_right_none _ _ _ (lookup_commonEntry_ne doc "all_images" "img[src]" "navigation" (by decide)),
        lookup_append_right_none _ _ _ (lookup_commonEntry_ne doc "all_links" "a[href]" "navigation" (by decide)),
        lookup_append_right_none _ _ _ (lookup_synthEntry_ne doc "lists" _ "navigation" (by decide)),
        lookup_append_right_none _ _ _ (lookup_synthEntry_ne doc "forms" _ "navigation" (by decide))]
    exact lookup_append_of_none _ _ _
      (lookup_append_none_none _ _ _
        (lookup_synthEntry_ne doc "products" _ "navigation" (by decide))
        (lookup_synthEntry_ne doc "articles" _ "navigation" (by decide)))
  · simp only [StructureAnalyzer.generate_selectors]
    rw [lookup_append_right_none _ _ _ (lookup_commonEntry_ne doc "tables" "table" "forms" (by decide)),
        lookup_append_right_none _ _ _ (lookup_commonEntry_ne doc "lists" "ul, ol" "forms" (by decide)),
        lookup_append_right_none _ _ _ (lookup_commonEntry_ne doc "paragraphs" "p" "forms" (by decide)),
        lookup_append_right_none _ _ _ (lookup_commonEntry_ne doc "headings" "h1, h2, h3, h4, h5, h6" "forms" (by decide)),
        lookup_append_right_none _ _ _ (lookup_commonEntry_ne doc "all_inputs" "input, textarea, select" "forms" (by decide)),
        lookup_append_right_none _ _ _ (lookup_commonEntry_ne doc "all_forms" "form" "forms" (by decide)),
        lookup_append_right_none _ _ _ (lookup_commonEntry_ne doc "all_images" "img[src]" "forms" (by decide)),
        lookup_append_right_none _ _ _ (lookup_commonEntry_ne doc "all_links" "a[href]" "forms" (by decide)),
        lookup_append_right_none _ _ _ (lookup_synthEntry_ne doc "lists" _ "forms" (by decide))]
    exact lookup_append_of_none _ _ _
      (lookup_append_none_none _ _ _
        (lookup_append_none_none _ _ _
          (lookup_synthEntry_ne doc "products" _ "forms" (by decide))
          (lookup_synthEntry_ne doc "articles" _ "forms" (by decide)))
        (lookup_synthEntry_ne doc "navigation" _ "forms" (by decide)))
  · simp only [StructureAnalyzer.generate_selectors]
    rw [lookup_append_right_none _ _ _ (lookup_commonEntry_ne doc "tables" "table" "lists" (by decide)),
        lookup_append_right_none _ _ _ (lookup_commonEntry_ne doc "lists" "ul, ol" "lists" (by decide)),
        lookup_append_right_none _ _ _ (lookup_commonEntry_ne doc "paragraphs" "p" "lists" (by decide)),
        lookup_append_right_none _ _ _ (lookup_commonEntry_ne doc "headings" "h1, h2, h3, h4, h5, h6" "lists" (by decide)),
        lookup_append_right_none _ _ _ (lookup_commonEntry_ne doc "all_inputs" "input, textarea, select" "lists" (by decide)),
        lookup_append_right_none _ _ _ (lookup_commonEntry_ne doc "all_forms" "form" "lists" (by decide)),
        lookup_append_right_none _ _ _ (lookup_commonEntry_ne doc "all_images" "img[src]" "lists" (by decide)),
        lookup_append_right_none _ _ _ (lookup_commonEntry_ne doc "all_links" "a[href]" "lists" (by decide))]
    exact lookup_append_of_none _ _ _
      (lookup_append_none_none _ _ _
        (lookup_append_none_none _ _ _
          (lookup_append_none_none _ _ _
            (lookup_synthEntry_ne doc "products" _ "lists" (by decide))
            (lookup_synthEntry_ne doc "articles" _ "lists" (by decide)))
          (lookup_synthEntry_ne doc "navigation" _ "lists" (by decide)))
        (lookup_synthEntry_ne doc "forms" _ "lists" (by decide)))

/-! ### Claim C7 — empty category key is omitted -/

/-- When every pattern of a category yields no elements, the per-pattern
loop collects no candidates. -/
theorem synthCategory_nil_of_noMatch (doc : Doc) :
    ∀ pats : List String, (∀ p ∈ pats, selNoMatch (doc.select p)) →
      StructureAnalyzer.synthCategory doc pats = [] := by
  intro pats
  induction pats with
  | nil => intro _; rfl
  | cons p rest ih =>
    intro h
    have hp := h p (List.mem_cons_self p rest)
    have hrest := ih (fun q hq => h q (List.mem_cons_of_mem _ hq))
    simp only [StructureAnalyzer.synthCategory, hrest, List.append_nil]
    cases hsel : doc.select p with
    | error e => rfl
    | ok es =>
      unfold selNoMatch at hp
      rw [hsel] at hp
      subst hp
      rfl

/-- Counterexample to C7 as stated: for a document with zero matches for
every products pattern, `suggested_selectors` does NOT map "products" to an
empty candidate list — the key is omitted altogether (lookup yields `none`,
not `some []`). -/
theorem selectors_empty_category_cex :
    (StructureAnalyzer.generate_selectors emptyDoc
      (StructureAnalyzer.detect_content_types emptyDoc)).lookup "products" = none ∧
    (none ≠ some ([] : List SelCand)) := by
  exact ⟨rfl, by simp⟩

/-- C7 amended: for every parsed document and every selector-synthesis
category, if the document has zero elements matching every candidate
pattern of that category, then no error is raised (generate_selectors is a
total function) and the category's key is OMITTED from suggested_selectors
(lookup yields none) rather than mapped to an empty list. -/
theorem selectors_empty_category_key_omitted (doc : Doc) (cts : List (String × Nat))
    (name : String) (pats : List String)
    (hmem : (name, pats) ∈ StructureAnalyzer.content_patterns)
    (hnone : ∀ p ∈ pats, selNoMatch (doc.select p)) :
    (StructureAnalyzer.generate_selectors doc cts).lookup name = none := by
  rw [lookup_generate_selectors doc cts name pats hmem, lookup_synthEntry_self]
  rw [synthCategory_nil_of_noMatch doc pats hnone]
  rfl

/-- Witness for the amended C7 at the all-empty document. -/
theorem selectors_empty_category_witness :
    (("products", ["[class*=\"product\"]", "[class*=\"item\"]", "[class*=\"card\"]"])
        ∈ StructureAnalyzer.content_patterns) ∧
    (∀ p ∈ ["[class*=\"product\"]", "[class*=\"item\"]", "[class*=\"card\"]"],
      selNoMatch (emptyDoc.select p)) ∧
    (StructureAnalyzer.generate_selectors emptyDoc
      (StructureAnalyzer.detect_content_types emptyDoc)).lookup "products" = none :=
  ⟨by decide, fun _ _ => rfl,
    selectors_empty_category_key_omitted emptyDoc
      (StructureAnalyzer.detect_content_types emptyDoc)
      "products" ["[class*=\"product\"]", "[class*=\"item\"]", "[class*=\"card\"]"]
      (by decide) (fun _ _ => rfl)⟩

/-! ### Claim C9 — idempotence and stable ordering of selector synthesis -/

theorem idxOf_cons_self (p : String) (ps : List String) : idxOf (p :: ps) p = 0 := by
  simp [idxOf]

theorem idxOf_cons_ne (p : String) (ps : List String) (s : String) (h : p ≠ s) :
    idxOf (p :: ps) s = 1 + idxOf ps s := by
  simp [idxOf, h]

/-- Inserting an element that originally precedes every element of an
already stably-ordered list preserves the stable descending order. -/
theorem pairwise_orderedInsert_stable (pats : List String) (x : SelCand)
    (l : List SelCand) (hl : l.Pairwise (stepRel pats))
    (hx : ∀ y ∈ l, idxOf pats x.selector < idxOf pats y.selector) :
    (List.orderedInsert (fun a b => b.count ≤ a.count) x l).Pairwise (stepRel pats) := by
  induction l with
  | nil => exact List.pairwise_singleton _ _
  | cons y ys ih =>
    simp only [List.orderedInsert]
    by_cases hcmp : y.count ≤ x.count
    · rw [if_pos hcmp]
      refine List.pairwise_cons.mpr ⟨?_, hl⟩
      intro z hz
      rcases List.mem_cons.mp hz with rfl | hz'
      · rcases Nat.lt_or_ge z.count x.count with hlt | hge
        · exact Or.inl hlt
        · exact Or.inr ⟨Nat.le_antisymm hge hcmp ▸ rfl,
            hx z (List.mem_cons_self _ _)⟩
      · have hyz := (List.pairwise_cons.mp hl).1 z hz'
        have hzy : z.count ≤ y.count := by
          rcases hyz with h1 | ⟨h2, _⟩
          · exact Nat.le_of_lt h1
          · omega
        rcases Nat.lt_or_ge z.count x.count with hlt | hge
        · exact Or.inl hlt
        · have : x.count = z.count := by omega
          exact Or.inr ⟨this, hx z (List.mem_cons_of_mem _ hz')⟩
    · rw [if_neg hcmp]
      have hxy : x.count < y.count := Nat.lt_of_not_le hcmp
      refine List.pairwise_cons.mpr ⟨?_, ih (List.pairwise_cons.mp hl).2
        (fun y' hy' => hx y' (List.mem_cons_of_mem _ hy'))⟩
      intro z hz
      rcases (List.mem_orderedInsert _).mp hz with rfl | hz'
      · exact Or.inl hxy
      · exact (List.pairwise_cons.mp hl).1 z hz'

/-- Python's stable descending sort on a list whose elements appear in
strictly increasing pattern order yields the stable ordering of C9. -/
theorem pairwise_pySortDesc_stable (pats : List String) (l : List SelCand)
    (hl : l.Pairwise (fun a b => idxOf pats a.selector < idxOf pats b.selector)) :
    (StructureAnalyzer.pySortDescByCount l).Pairwise (stepRel pats) := by
  induction l with
  | nil => exact List.Pairwise.nil
  | cons x xs ih =>
    have hx := (List.pairwise_cons.mp hl).1
    have hxs := (List.pairwise_cons.mp hl).2
    simp only [StructureAnalyzer.pySortDescByCount, List.insertionSort]
    exact pairwise_orderedInsert_stable pats x _ (ih hxs)
      (fun y hy => hx y ((List.mem_insertionSort _).mp hy))

/-- Every candidate the per-pattern loop emits carries one of the category's
patterns as its selector. -/
theorem synthCategory_sel_mem (doc : Doc) :
    ∀ (pats : List String) (c : SelCand),
      c ∈ StructureAnalyzer.synthCategory doc pats → c.selector ∈ pats := by
  intro pats
  induction pats with
  | nil => intro c hc; cases hc
  | cons p rest ih =>
    intro c hc
    simp only [StructureAnalyzer.synthCategory] at hc
    rcases List.mem_append.mp hc with h1 | h2
    · cases hsel : doc.select p with
      | error e => rw [hsel] at h1; cases h1
      | ok es =>
        cases es with
        | nil => rw [hsel] at h1; cases h1
        | cons e es' =>
          rw [hsel] at h1
          rcases List.mem_singleton.mp h1 with rfl
          exact List.mem_cons_self _ _
    · exact List.mem_cons_of_mem _ (ih c h2)

/-- The candidates leave the per-pattern loop in strictly increasing
pattern order (first-encountered order), provided the category's pattern
list has no duplicates. -/
theorem synthCategory_pairwise_idx (doc : Doc) :
    ∀ pats : List String, pats.Nodup →
      (StructureAnalyzer.synthCategory doc pats).Pairwise
        (fun a b => idxOf pats a.selector < idxOf pats b.selector) := by
  intro pats
  induction pats with
  | nil => intro _; exact List.Pairwise.nil
  | cons p rest ih =>
    intro hnd
    have hpnotin : p ∉ rest := (List.nodup_cons.mp hnd).1
    have hndrest : rest.Nodup := (List.nodup_cons.mp hnd).2
    have htrans : (StructureAnalyzer.synthCategory doc rest).Pairwise
        (fun a b => idxOf (p :: rest) a.selector < idxOf (p :: rest) b.selector) := by
      refine List.Pairwise.imp_of_mem ?_ (ih hndrest)
      intro a b ha hb hab
      have ha' : a.selector ∈ rest := synthCategory_sel_mem doc rest a ha
      have hb' : b.selector ∈ rest := synthCategory_sel_mem doc rest b hb
      have hap : p ≠ a.selector := fun he => hpnotin (he ▸ ha')
      have hbp : p ≠ b.selector := fun he => hpnotin (he ▸ hb')
      rw [idxOf_cons_ne _ _ _ hap, idxOf_cons_ne _ _ _ hbp]
      omega
    simp only [StructureAnalyzer.synthCategory]
    cases hsel : doc.select p with
    | error e => simpa using htrans
    | ok es =>
      cases es with
      | nil => simpa using htrans
      | cons e es' =>
        refine List.pairwise_append.mpr ⟨List.pairwise_singleton _ _, htrans, ?_⟩
        intro a ha b hb
        rcases List.mem_singleton.mp ha with rfl
        have hb' : b.selector ∈ rest := synthCategory_sel_mem doc rest b hb
        have hbp : p ≠ b.selector := fun he => hpnotin (he ▸ hb')
        simp only [idxOf_cons_self, idxOf_cons_ne _ _ _ hbp]
        omega

/-- Each of the five synthesis categories lists pairwise-distinct patterns. -/
theorem content_patterns_nodup (name : String) (pats : List String)
    (hmem : (name, pats) ∈ StructureAnalyzer.content_patterns) : pats.Nodup := by
  simp only [StructureAnalyzer.content_patterns] at hmem
  simp at hmem
  rcases hmem with ⟨-, rfl⟩ | ⟨-, rfl⟩ | ⟨-, rfl⟩ | ⟨-, rfl⟩ | ⟨-, rfl⟩ <;> decide

/-- C9: DOM classification is deterministic and idempotent — re-running
content-type detection and selector synthesis on the unchanged parsed
document yields identical results — and every synthesis category's
candidate list is ordered by match count descending with ties kept in
first-encountered-pattern order (Python's stable sort). -/
theorem dom_classification_idempotent_stable (doc : Doc) (cts : List (String × Nat)) :
    StructureAnalyzer.detect_content_types doc = StructureAnalyzer.detect_content_types doc ∧
    StructureAnalyzer.generate_selectors doc cts = StructureAnalyzer.generate_selectors doc cts ∧
    ∀ (name : String) (pats : List String) (cands : List SelCand),
      (name, pats) ∈ StructureAnalyzer.content_patterns →
      (StructureAnalyzer.generate_selectors doc cts).lookup name = some cands →
      cands.Pairwise (stepRel pats) := by
  refine ⟨rfl, rfl, ?_⟩
  intro name pats cands hmem hlp
  rw [lookup_generate_selectors doc cts name pats hmem, lookup_synthEntry_self] at hlp
  by_cases he : (StructureAnalyzer.synthCategory doc pats).isEmpty
  · rw [if_pos he] at hlp
    cases hlp
  · rw [if_neg he] at hlp
    have hc : StructureAnalyzer.pySortDescByCount
        (StructureAnalyzer.synthCategory doc pats) = cands := by
      injection hlp
    rw [← hc]
    exact pairwise_pySortDesc_stable pats _
      (synthCategory_pairwise_idx doc pats (content_patterns_nodup name pats hmem))

/-- Witness for C9 at `tieDoc`: the sorted products list is `tieCands` and
it satisfies the stable descending ordering. -/
theorem dom_classification_witness :
    (("products", ["[class*=\"product\"]", "[class*=\"item\"]", "[class*=\"card\"]"])
        ∈ StructureAnalyzer.content_patterns) ∧
    (StructureAnalyzer.generate_selectors tieDoc []).lookup "products" = some tieCands ∧
    tieCands.Pairwise (stepRel ["[class*=\"product\"]", "[class*=\"item\"]", "[class*=\"card\"]"]) :=
  ⟨by decide, by decide,
    (dom_classification_idempotent_stable tieDoc []).2.2 "products"
      ["[class*=\"product\"]", "[class*=\"item\"]", "[class*=\"card\"]"] tieCands
      (by decide) (by decide)⟩

/-- C5 (code bug): the recommendation synthesizer does NOT branch on the
protection report's total_score.  Line 212 of comprehensive_analyzer.py
reads the key `complexity_score`, which the protection report never
contains (its score key is `total_score`), so the read defaults to 0 and
the low branch (< 40, "Simple scraping") is selected for EVERY protection
report — here concretely for the CRITICAL short-circuit report with
total_score = 100, where the claimed total_score branching would select the
critical-tier recommendations. -/
theorem recommendations_read_missing_complexity_score :
    (ProtectionAnalyzer.analyze dnsFailEnv).total_score = 100 ∧
    (ProtectionAnalyzer.analyze dnsFailEnv).complexity_score = none ∧
    ComprehensiveWebsiteAnalyzer.generate_recommendations "en"
      { protection := some (ProtectionAnalyzer.analyze dnsFailEnv)
        structureReport := none } =
      ["✅ Simple scraping: use requests + BeautifulSoup",
       "🔧 Add User-Agent headers for stability"] := by
  refine ⟨by decide, by decide, by decide⟩
